import Mathlib

/-!
Shallow embedding of the Hixa language front-end and evaluator
(src/hixa/lexer.py, src/hixa/parser.py, src/hixa/interpreter.py),
together with theorems settling the specification claims.

Conventions of the embedding:
* Python machine state is passed explicitly; exceptions become sum types.
* Recursion that is unbounded in the host (scanning loops, recursive
  descent, the tree-walking evaluator) is driven by a fuel parameter;
  running out of fuel is a distinct outcome that concrete runs never hit.
* Host floating point numbers are modelled as rationals: no claim in
  scope depends on rounding, only on type tags and error behaviour.
-/

namespace Hixa

/-! ## Token model (lexer.py, class TokenType / class Token) -/

/-- Token kinds, mirroring `TokenType` in lexer.py. -/
inductive TokType where
  | INT | FLOAT | STRING | BOOLEAN | IDENTIFIER
  -- Keywords - Core Control Flow
  | KAM | GHAURAI_DIYA | JODI | NOHOLE | NAHOLE | JETIALOIKE | KARONE | HEKH
  -- Boolean Keywords
  | HOSA | MISA | NAI | ARU | BA | NOT_KORA
  -- Variable and Type Keywords
  | DHORA | LIST | DICTIONARY
  -- Loop Control
  | BREAK_KORA | CONTINUE_KORA
  -- Module and Program Structure
  | IMPORT | MAIN | PASS_KORA
  -- I/O Operations
  | INPUT_LOU | PRINT_KORA | POHA | LIKHA | OPEN_KORA | CLOSE_KORA
  -- Utility Functions
  | RANDOM_KORA | TIME_KORA | SLEEP_KORA | CLEAR_KORA
  -- List/String Operations
  | LENGTH_KORA | ADD_KORA | REMOVE_KORA | SORT_KORA | REVERSE_KORA
  | BISORA | REPLACE_KORA | SPLIT_KORA | JOIN_KORA | UPPER_KORA | LOWER_KORA
  -- Math Functions
  | ROUND_KORA | FLOOR_KORA | CEIL_KORA | ABS_KORA | SQRT_KORA | POW_KORA
  | SIN_KORA | COS_KORA | TAN_KORA | LOG_KORA | EXP_KORA | MIN_KORA
  | MAX_KORA | SUM_KORA | AVERAGE_KORA | COUNT_KORA
  -- Object/Data Operations
  | COPY_KORA | DELETE_KORA | CHECK_KORA | CONVERT_KORA | FORMAT_KORA | VALIDATE_KORA
  -- Error Handling
  | ERROR_KORA | TRY_KORA | CATCH_KORA | FINALLY_KORA
  -- Legacy English Keywords (for backward compatibility)
  | LET | FN | IF | ELSE | WHILE | FOR | IN | RETURN | CLASS | SELF
  | TRUE | FALSE | NULL
  -- Operators
  | PLUS | MINUS | MULTIPLY | DIVIDE | MODULO | ASSIGN | EQUAL | NOT_EQUAL
  | LESS | LESS_EQUAL | GREATER | GREATER_EQUAL | AND | OR | NOT
  -- Delimiters
  | LPAREN | RPAREN | LBRACE | RBRACE | LBRACKET | RBRACKET
  | SEMICOLON | COMMA | DOT | COLON | ARROW | PIPE
  -- Special
  | EOF | NEWLINE | COMMENT
deriving DecidableEq, Repr

/-- A token: kind, lexeme text, source line and column (class `Token`). -/
structure Token where
  type : TokType
  value : String
  line : Nat
  column : Nat
deriving DecidableEq, Repr

/-! ## Lexer (lexer.py, class Lexer) -/

/-- The keyword table `Lexer.keywords`, in source order. -/
def keywords : List (String × TokType) :=
  [ -- Core Control Flow
    ("kam", .KAM), ("ghurai_diya", .GHAURAI_DIYA), ("jodi", .JODI),
    ("nohole", .NOHOLE), ("nahole", .NAHOLE), ("jetialoike", .JETIALOIKE),
    ("karone", .KARONE), ("hekh", .HEKH),
    -- Boolean/Null/Logic
    ("hosa", .HOSA), ("misa", .MISA), ("nai", .NAI), ("aru", .ARU),
    ("ba", .BA), ("not_kora", .NOT_KORA),
    -- Variable declaration
    ("dhora", .DHORA),
    -- Loop Control
    ("break_kora", .BREAK_KORA), ("continue_kora", .CONTINUE_KORA),
    -- Module and Program Structure
    ("import", .IMPORT), ("pass_kora", .PASS_KORA),
    -- Error Handling
    ("error_kora", .ERROR_KORA), ("try_kora", .TRY_KORA),
    ("catch_kora", .CATCH_KORA), ("finally_kora", .FINALLY_KORA),
    -- Legacy English Keywords (for backward compatibility)
    ("let", .LET), ("fn", .FN), ("if", .IF), ("else", .ELSE),
    ("while", .WHILE), ("for", .FOR), ("in", .IN), ("return", .RETURN),
    ("class", .CLASS), ("self", .SELF), ("true", .TRUE), ("false", .FALSE),
    ("null", .NULL), ("print", .PRINT_KORA) ]

/-- Python `str.isspace` restricted to the ASCII whitespace characters. -/
def pyIsSpace (c : Char) : Bool :=
  c = ' ' || c = '\t' || c = '\n' || c = '\r' || c = '\x0b' || c = '\x0c'

/-- `Lexer._skip_whitespace`: consume whitespace, tracking line/column
(line advances and column resets on a newline). -/
def skipWs : List Char → Nat → Nat → List Char × Nat × Nat
  | [], line, col => ([], line, col)
  | c :: rest, line, col =>
    if pyIsSpace c then
      if c = '\n' then skipWs rest (line + 1) 1 else skipWs rest line (col + 1)
    else (c :: rest, line, col)

/-- List-prefix test used for the fixed operator patterns. -/
def isPre : List Char → List Char → Bool
  | [], _ => true
  | _ :: _, [] => false
  | p :: ps, c :: cs => p == c && isPre ps cs

/-- Regex `"[^"]*"`: a double quote, any non-quote characters, a closing
double quote; returns the raw lexeme including the quotes. -/
def matchStringLit (cs : List Char) : Option (List Char) :=
  match cs with
  | '"' :: rest =>
    let mid := rest.takeWhile (· ≠ '"')
    match rest.dropWhile (· ≠ '"') with
    | '"' :: _ => some ('"' :: mid ++ ['"'])
    | _ => none
  | _ => none

/-- Regex `\d+\.\d+`. -/
def matchFloatLit (cs : List Char) : Option (List Char) :=
  let d1 := cs.takeWhile Char.isDigit
  let r1 := cs.dropWhile Char.isDigit
  if d1.isEmpty then none
  else match r1 with
    | '.' :: r2 =>
      let d2 := r2.takeWhile Char.isDigit
      if d2.isEmpty then none else some (d1 ++ '.' :: d2)
    | _ => none

/-- Regex `\d+`. -/
def matchIntLit (cs : List Char) : Option (List Char) :=
  let d := cs.takeWhile Char.isDigit
  if d.isEmpty then none else some d

/-- Python identifier characters after the first: `[a-zA-Z0-9_]`. -/
def isIdentChar (c : Char) : Bool := c.isAlpha || c.isDigit || c = '_'

/-- Regex `[a-zA-Z_][a-zA-Z0-9_]*`. -/
def matchIdentLit (cs : List Char) : Option (List Char) :=
  match cs with
  | c :: rest =>
    if c.isAlpha || c = '_' then some (c :: rest.takeWhile isIdentChar) else none
  | [] => none

/-- The fixed operator/delimiter patterns from `Lexer.patterns`, in source
order (multi-character operators listed before their prefixes). -/
def opPatterns : List (TokType × List Char) :=
  [ (.ARROW, ['-', '>']), (.LESS_EQUAL, ['<', '=']), (.GREATER_EQUAL, ['>', '=']),
    (.NOT_EQUAL, ['!', '=']), (.EQUAL, ['=', '=']), (.ASSIGN, ['=']),
    (.PLUS, ['+']), (.MINUS, ['-']), (.MULTIPLY, ['*']), (.DIVIDE, ['/']),
    (.MODULO, ['%']), (.LESS, ['<']), (.GREATER, ['>']),
    (.AND, ['&', '&']), (.OR, ['|', '|']), (.NOT, ['!']),
    (.LPAREN, ['(']), (.RPAREN, [')']), (.LBRACE, ['\x7b']), (.RBRACE, ['\x7d']),
    (.LBRACKET, ['[']), (.RBRACKET, [']']), (.SEMICOLON, [';']), (.COMMA, [',']),
    (.DOT, ['.']), (.COLON, [':']), (.PIPE, ['|']) ]

/-- First operator pattern that is a prefix of the input. -/
def firstOpMatch : List (TokType × List Char) → List Char → Option (TokType × List Char)
  | [], _ => none
  | (ty, pat) :: rest, cs => if isPre pat cs then some (ty, pat) else firstOpMatch rest cs

/-- The pattern loop of `Lexer._get_next_token`: try string, float, int,
identifier, then the fixed operators, in the order of `Lexer.patterns`
(the comment pattern is handled separately, before this loop). -/
def matchRaw (cs : List Char) : Option (TokType × List Char) :=
  match matchStringLit cs with
  | some raw => some (.STRING, raw)
  | none =>
    match matchFloatLit cs with
    | some raw => some (.FLOAT, raw)
    | none =>
      match matchIntLit cs with
      | some raw => some (.INT, raw)
      | none =>
        match matchIdentLit cs with
        | some raw => some (.IDENTIFIER, raw)
        | none => firstOpMatch opPatterns cs

/-- `Lexer._create_token`: reclassify identifiers that are keywords, and
strip the surrounding quotes from string lexemes. -/
def createToken (ty : TokType) (value : String) (line col : Nat) : Token :=
  let ty' := if ty = .IDENTIFIER then
               match List.lookup value keywords with
               | some k => k
               | none => ty
             else ty
  let value' := if ty' = .STRING then (value.drop 1).dropRight 1 else value
  ⟨ty', value', line, col⟩

/-- The `Lexer.tokenize` scanning loop.  Each iteration skips whitespace,
then either ends (emitting the EOF token), discards a `//` comment, or
emits one token; an unmatched character is a fatal lexical failure. -/
def runLexer : Nat → List Char → Nat → Nat → Except String (List Token)
  | 0, _, _, _ => .error "lexer fuel exhausted"
  | fuel + 1, cs, line, col =>
    match skipWs cs line col with
    | (cs', line', col') =>
      match cs' with
      | [] => .ok [⟨.EOF, "", line', col'⟩]
      | c :: rest =>
        if c = '/' && rest.head? = some '/' then
          -- Lexer._handle_comment: consume to end of line, token discarded
          let com := cs'.takeWhile (· ≠ '\n')
          runLexer fuel (cs'.dropWhile (· ≠ '\n')) line' (col' + com.length)
        else
          match matchRaw cs' with
          | some (ty, raw) =>
            let tok := createToken ty (String.mk raw) line' col'
            (runLexer fuel (cs'.drop raw.length) line' (col' + raw.length)).map
              (fun ts => tok :: ts)
          | none =>
            .error ("Unexpected character \x27" ++ String.mk [c] ++ "\x27 at line "
              ++ toString line' ++ ", column " ++ toString col')

/-- `Lexer.tokenize` on a whole source string (fuel: one unit per emitted
token or comment suffices, so the length bound is ample). -/
def tokenize (source : String) : Except String (List Token) :=
  runLexer (source.length + 1) source.data 1 1

/-! ## AST (ast.py)

One inductive covers the whole closed node set; the Python classes'
`accept`/visitor double dispatch becomes ordinary pattern matching.
`Literal` stores its primitive payload with the tag that the parser puts
in the node's `type_` field. -/

/-- Payload of a `Literal` node (value plus its `type_` tag). -/
inductive LitVal where
  | int (n : Int)
  | float (q : Rat)
  | str (s : String)
  | bool (b : Bool)
  | null
deriving DecidableEq, Repr

/-- A function `Parameter` (name, optional type annotation). -/
structure Param where
  name : String
  typeAnn : Option String
deriving DecidableEq, Repr

/-- AST nodes (the `ASTNode` variant set of ast.py).  Object-literal
properties are ordered key/expression pairs (`Property`). -/
inductive Node where
  | Literal (value : LitVal)
  | Identifier (name : String)
  | BinaryExpression (left : Node) (operator : String) (right : Node)
  | UnaryExpression (operator : String) (operand : Node)
  | CallExpression (callee : Node) (arguments : List Node)
  | AssignmentExpression (target : Node) (operator : String) (value : Node)
  | MemberExpression (object_ : Node) (property : Node) (computed : Bool)
  | IndexExpression (array : Node) (idx : Node)
  | ArrayExpression (elements : List Node)
  | ObjectExpression (properties : List (String × Node))
  | VariableDeclaration (name : String) (typeAnn : Option String)
      (initializer : Option Node)
  | FunctionDeclaration (name : String) (parameters : List Param)
      (returnType : Option String) (body : Node)
  | BlockStatement (statements : List Node)
  | IfStatement (condition : Node) (thenBranch : Node) (elseBranch : Option Node)
  | WhileStatement (condition : Node) (body : Node)
  | ForStatement (initializer : Option Node) (condition : Option Node)
      (increment : Option Node) (body : Node)
  | ReturnStatement (value : Option Node)
deriving Repr

/-- A parsed `Program`. -/
structure Program where
  statements : List Node
deriving Repr

/-! ## Parser (parser.py, class Parser)

The parser's mutable fields (`tokens`, `current`, `errors`) become the
state `PState`; a raised `SyntaxError` becomes the `Except.error` side of
a result, carrying `str(e)` (the formatted message).  Recursive descent is
driven by fuel; concrete runs use ample fuel. -/

/-- Parser state: token list, cursor, accumulated error messages. -/
structure PState where
  tokens : List Token
  current : Nat
  errors : List String
deriving Repr

/-- Result of a parser method: normal return or a raised `SyntaxError`,
together with the state after the call. -/
abbrev PRes (α : Type) := Except String α × PState

/-- `Parser.peek`. -/
def peekT (st : PState) : Token := st.tokens.getD st.current ⟨.EOF, "", 0, 0⟩

/-- `Parser.previous`. -/
def previousT (st : PState) : Token := st.tokens.getD (st.current - 1) ⟨.EOF, "", 0, 0⟩

/-- `Parser.is_at_end`. -/
def pIsAtEnd (st : PState) : Bool := (peekT st).type == .EOF

/-- `Parser.check`: false at end of input, else compares the current
token's kind (note: this makes `check(EOF)` identically false). -/
def checkT (st : PState) (ty : TokType) : Bool :=
  if pIsAtEnd st then false else (peekT st).type == ty

/-- `Parser.advance` (the returned token is read via `previousT`). -/
def advanceT (st : PState) : PState :=
  if pIsAtEnd st then st else { st with current := st.current + 1 }

/-- `Parser.match`: try each kind in turn, consuming on the first hit. -/
def matchT (st : PState) : List TokType → Bool × PState
  | [] => (false, st)
  | ty :: rest => if checkT st ty then (true, advanceT st) else matchT st rest

/-- `Parser.error`: format the message with the token position, record it
in `errors`, and produce the exception payload. -/
def errorT (st : PState) (tok : Token) (msg : String) : String × PState :=
  let m := "Error at line " ++ toString tok.line ++ ", column "
    ++ toString tok.column ++ ": " ++ msg
  (m, { st with errors := st.errors ++ [m] })

/-- `Parser.consume`: advance past a token of the expected kind or raise. -/
def consumeT (st : PState) (ty : TokType) (msg : String) : PRes Token :=
  if checkT st ty then
    let st' := advanceT st
    (.ok (previousT st'), st')
  else
    let (m, st') := errorT st (peekT st) msg
    (.error m, st')

/-- Sequencing that propagates a raised `SyntaxError`. -/
def pbind (r : PRes α) (f : α → PState → PRes β) : PRes β :=
  match r with
  | (.ok a, st) => f a st
  | (.error m, st) => (.error m, st)

/-- Statement-start kinds of `Parser.synchronize`. -/
def syncStartKinds : List TokType :=
  [ .FN, .LET, .IF, .WHILE, .FOR, .RETURN,
    .KAM, .DHORA, .JODI, .JETIALOIKE, .KARONE, .GHAURAI_DIYA ]

/-- The scan loop of `Parser.synchronize`. -/
def synchronizeAux : Nat → PState → PState
  | 0, st => st
  | fuel + 1, st =>
    if pIsAtEnd st then st
    else if (previousT st).type == .SEMICOLON then st
    else if syncStartKinds.contains (peekT st).type then st
    else synchronizeAux fuel (advanceT st)

/-- `Parser.synchronize`: advance once, then scan to a safe boundary. -/
def synchronize (st : PState) : PState :=
  synchronizeAux (st.tokens.length + 1) (advanceT st)

/-- Decimal value of a digit-character list. -/
def natOfDigits (cs : List Char) : Nat :=
  cs.foldl (fun n c => n * 10 + (c.toNat - '0'.toNat)) 0

/-- Convert an `INT` lexeme (a digit string) as Python `int` does. -/
def intOfLexeme (s : String) : Int := Int.ofNat (natOfDigits s.data)

/-- Convert a `FLOAT` lexeme `digits.digits` to its exact decimal value
(host IEEE rounding is not modelled; no claim depends on it). -/
def ratOfLexeme (s : String) : Rat :=
  let a := s.data.takeWhile (· ≠ '.')
  let b := (s.data.dropWhile (· ≠ '.')).drop 1
  (natOfDigits a : Rat) + (natOfDigits b : Rat) / (10 : Rat) ^ b.length

mutual

/-- `Parser.declaration`: dispatch to function/variable declaration or a
statement, catching any `SyntaxError` (record it, synchronize, and
contribute no node). -/
def declarationP : Nat → PState → PRes (Option Node)
  | 0, st => (.error "parser fuel exhausted", st)
  | fuel + 1, st =>
    let run : PRes Node :=
      let (isFn, st1) := matchT st [.FN, .KAM]
      if isFn then functionDeclarationP fuel st1
      else
        let (isLet, st2) := matchT st1 [.LET, .DHORA]
        if isLet then variableDeclarationP fuel st2
        else statementIU fuel st2
    match run with
    | (.ok n, st') => (.ok (some n), st')
    | (.error m, st') =>
      let st'' := { st' with errors := st'.errors ++ ["Error parsing declaration: " ++ m] }
      (.ok none, synchronize st'')

  termination_by structural fuel a1 => fuel
/-- `Parser.function_declaration`. -/
def functionDeclarationP : Nat → PState → PRes Node
  | 0, st => (.error "parser fuel exhausted", st)
  | fuel + 1, st =>
    pbind (consumeT st .IDENTIFIER "Expected function name") fun nameTok st =>
    pbind (consumeT st .LPAREN "Expected \x27(\x27 after function name") fun _ st =>
    pbind (parametersP fuel st) fun params st =>
    pbind (consumeT st .RPAREN "Expected \x27)\x27 after parameters") fun _ st =>
    let (hasArrow, st) := matchT st [.ARROW]
    let next : Option String → PState → PRes Node := fun retTy st =>
      pbind (consumeT st .LBRACE "Expected \x27\x7b\x27 before function body") fun _ st =>
      let st := skipNewlinesP fuel st
      pbind (blockStatementP fuel st) fun body st =>
      (.ok (.FunctionDeclaration nameTok.value params retTy body), st)
    if hasArrow then
      pbind (consumeT st .IDENTIFIER "Expected return type") fun tyTok st =>
      next (some tyTok.value) st
    else next none st

  termination_by structural fuel a1 => fuel
/-- The `while self.match(NEWLINE): pass` loop (no-op on lexer output,
which never contains NEWLINE tokens). -/
def skipNewlinesP : Nat → PState → PState
  | 0, st => st
  | fuel + 1, st =>
    let (m, st') := matchT st [.NEWLINE]
    if m then skipNewlinesP fuel st' else st'

  termination_by structural fuel a1 => fuel
/-- `Parser.parameters`. -/
def parametersP : Nat → PState → PRes (List Param)
  | 0, st => (.error "parser fuel exhausted", st)
  | fuel + 1, st =>
    if checkT st .RPAREN then (.ok [], st) else parametersLoopP fuel st

  termination_by structural fuel a1 => fuel
/-- The `while True` body of `Parser.parameters`. -/
def parametersLoopP : Nat → PState → PRes (List Param)
  | 0, st => (.error "parser fuel exhausted", st)
  | fuel + 1, st =>
    pbind (consumeT st .IDENTIFIER "Expected parameter name") fun nameTok st =>
    let (hasColon, st) := matchT st [.COLON]
    let next : Param → PState → PRes (List Param) := fun p st =>
      let (hasComma, st) := matchT st [.COMMA]
      if hasComma then
        pbind (parametersLoopP fuel st) fun ps st => (.ok (p :: ps), st)
      else (.ok [p], st)
    if hasColon then
      pbind (consumeT st .IDENTIFIER "Expected parameter type") fun tyTok st =>
      next ⟨nameTok.value, some tyTok.value⟩ st
    else next ⟨nameTok.value, none⟩ st

  termination_by structural fuel a1 => fuel
/-- `Parser.variable_declaration`.  Terminator handling mirrors the source
line for line: `match(SEMICOLON)` consumes a semicolon; the `check(EOF)`
and `check(NEWLINE)` alternatives are then tested; on success one more
`advance()` is executed unless `check(EOF)` holds. -/
def variableDeclarationP : Nat → PState → PRes Node
  | 0, st => (.error "parser fuel exhausted", st)
  | fuel + 1, st =>
    pbind (consumeT st .IDENTIFIER "Expected variable name") fun nameTok st =>
    let (hasColon, st) := matchT st [.COLON]
    let withTy : Option String → PState → PRes Node := fun ty st =>
      let (hasAssign, st) := matchT st [.ASSIGN]
      let finish : Option Node → PState → PRes Node := fun ini st =>
        let (gotSemi, st) := matchT st [.SEMICOLON]
        if gotSemi || checkT st .EOF || checkT st .NEWLINE then
          let st := if checkT st .EOF then st else advanceT st
          (.ok (.VariableDeclaration nameTok.value ty ini), st)
        else
          let (m, st) := errorT st (peekT st)
            "Expected \x27;\x27 or newline after variable declaration"
          (.error m, st)
      if hasAssign then
        pbind (expressionP fuel st) fun ini st => finish (some ini) st
      else finish none st
    if hasColon then
      pbind (consumeT st .IDENTIFIER "Expected variable type") fun tyTok st =>
      withTy (some tyTok.value) st
    else withTy none st

  termination_by structural fuel a1 => fuel
/-- `Parser.statement` (name suffixed to avoid clashing with the AST
constructor namespace). -/
def statementIU : Nat → PState → PRes Node
  | 0, st => (.error "parser fuel exhausted", st)
  | fuel + 1, st =>
    let (isIf, st) := matchT st [.IF, .JODI]
    if isIf then ifStatementP fuel st else
    let (isWhile, st) := matchT st [.WHILE, .JETIALOIKE]
    if isWhile then whileStatementP fuel st else
    let (isFor, st) := matchT st [.FOR, .KARONE]
    if isFor then forStatementP fuel st else
    let (isRet, st) := matchT st [.RETURN, .GHAURAI_DIYA]
    if isRet then returnStatementP fuel st else
    let (isBrace, st) := matchT st [.LBRACE]
    if isBrace then blockStatementP fuel st
    else expressionStatementP fuel st

  termination_by structural fuel a1 => fuel
/-- `Parser.if_statement`. -/
def ifStatementP : Nat → PState → PRes Node
  | 0, st => (.error "parser fuel exhausted", st)
  | fuel + 1, st =>
    pbind (consumeT st .LPAREN "Expected \x27(\x27 after \x27if\x27") fun _ st =>
    pbind (expressionP fuel st) fun cond st =>
    pbind (consumeT st .RPAREN "Expected \x27)\x27 after if condition") fun _ st =>
    pbind (statementIU fuel st) fun thenB st =>
    let (hasElse, st) := matchT st [.ELSE, .NOHOLE]
    if hasElse then
      pbind (statementIU fuel st) fun elseB st =>
      (.ok (.IfStatement cond thenB (some elseB)), st)
    else (.ok (.IfStatement cond thenB none), st)

  termination_by structural fuel a1 => fuel
/-- `Parser.while_statement`. -/
def whileStatementP : Nat → PState → PRes Node
  | 0, st => (.error "parser fuel exhausted", st)
  | fuel + 1, st =>
    pbind (consumeT st .LPAREN "Expected \x27(\x27 after \x27while\x27") fun _ st =>
    pbind (expressionP fuel st) fun cond st =>
    pbind (consumeT st .RPAREN "Expected \x27)\x27 after while condition") fun _ st =>
    pbind (statementIU fuel st) fun body st =>
    (.ok (.WhileStatement cond body), st)

  termination_by structural fuel a1 => fuel
/-- `Parser.for_statement` (C-style clauses). -/
def forStatementP : Nat → PState → PRes Node
  | 0, st => (.error "parser fuel exhausted", st)
  | fuel + 1, st =>
    pbind (consumeT st .LPAREN "Expected \x27(\x27 after \x27for\x27") fun _ st =>
    let (noInit, st) := matchT st [.SEMICOLON]
    let withInit : Option Node → PState → PRes Node := fun ini st =>
      let condPart : PRes (Option Node) :=
        if !(checkT st .SEMICOLON) then
          pbind (expressionP fuel st) fun c st => (.ok (some c), st)
        else (.ok none, st)
      pbind condPart fun cond st =>
      pbind (consumeT st .SEMICOLON "Expected \x27;\x27 after for loop condition") fun _ st =>
      let incrPart : PRes (Option Node) :=
        if !(checkT st .RPAREN) then
          pbind (expressionP fuel st) fun i st => (.ok (some i), st)
        else (.ok none, st)
      pbind incrPart fun incr st =>
      pbind (consumeT st .RPAREN "Expected \x27)\x27 after for clauses") fun _ st =>
      pbind (statementIU fuel st) fun body st =>
      (.ok (.ForStatement ini cond incr body), st)
    if noInit then withInit none st
    else
      let (isLet, st) := matchT st [.LET, .DHORA]
      if isLet then
        pbind (variableDeclarationP fuel st) fun ini st => withInit (some ini) st
      else
        pbind (expressionStatementP fuel st) fun ini st => withInit (some ini) st

  termination_by structural fuel a1 => fuel
/-- `Parser.return_statement`. -/
def returnStatementP : Nat → PState → PRes Node
  | 0, st => (.error "parser fuel exhausted", st)
  | fuel + 1, st =>
    let valuePart : PRes (Option Node) :=
      if !(checkT st .SEMICOLON) then
        pbind (expressionP fuel st) fun v st => (.ok (some v), st)
      else (.ok none, st)
    pbind valuePart fun v st =>
    pbind (consumeT st .SEMICOLON "Expected \x27;\x27 after return value") fun _ st =>
    (.ok (.ReturnStatement v), st)

  termination_by structural fuel a1 => fuel
/-- The statement loop of `Parser.block_statement`. -/
def blockLoopP : Nat → PState → PRes (List Node)
  | 0, st => (.error "parser fuel exhausted", st)
  | fuel + 1, st =>
    if checkT st .RBRACE || pIsAtEnd st then (.ok [], st)
    else
      let st := skipNewlinesP fuel st
      if checkT st .RBRACE || pIsAtEnd st then (.ok [], st)
      else
        pbind (declarationP fuel st) fun opt st =>
        pbind (blockLoopP fuel st) fun rest st =>
        match opt with
        | some n => (.ok (n :: rest), st)
        | none => (.ok rest, st)

  termination_by structural fuel a1 => fuel
/-- `Parser.block_statement` (called with the `\x7b` already consumed). -/
def blockStatementP : Nat → PState → PRes Node
  | 0, st => (.error "parser fuel exhausted", st)
  | fuel + 1, st =>
    pbind (blockLoopP fuel st) fun stmts st =>
    pbind (consumeT st .RBRACE "Expected \x27\x7d\x27 after block") fun _ st =>
    (.ok (.BlockStatement stmts), st)

  termination_by structural fuel a1 => fuel
/-- `Parser.expression_statement`: the expression itself is the node;
terminators handled as in the source (`check(EOF)`/`check(NEWLINE)` are
dead on lexer output, so in practice a semicolon is required). -/
def expressionStatementP : Nat → PState → PRes Node
  | 0, st => (.error "parser fuel exhausted", st)
  | fuel + 1, st =>
    pbind (expressionP fuel st) fun e st =>
    let (gotSemi, st) := matchT st [.SEMICOLON]
    if gotSemi then (.ok e, st)
    else if checkT st .EOF || checkT st .NEWLINE then
      let st := if checkT st .EOF then st else advanceT st
      (.ok e, st)
    else
      let (m, st) := errorT st (peekT st) "Expected \x27;\x27 or newline after expression"
      (.error m, st)

  termination_by structural fuel a1 => fuel
/-- `Parser.expression`. -/
def expressionP : Nat → PState → PRes Node
  | 0, st => (.error "parser fuel exhausted", st)
  | fuel + 1, st => assignmentP fuel st

  termination_by structural fuel a1 => fuel
/-- `Parser.assignment`: right-recursive; an invalid target records an
error but does not raise (the source discards the exception object),
returning the left-hand expression. -/
def assignmentP : Nat → PState → PRes Node
  | 0, st => (.error "parser fuel exhausted", st)
  | fuel + 1, st =>
    pbind (orExpressionP fuel st) fun e st =>
    let (isAssign, st) := matchT st [.ASSIGN]
    if isAssign then
      let equals := previousT st
      pbind (assignmentP fuel st) fun v st =>
      match e with
      | .Identifier _ => (.ok (.AssignmentExpression e equals.value v), st)
      | .MemberExpression _ _ _ => (.ok (.AssignmentExpression e equals.value v), st)
      | _ =>
        let (_, st) := errorT st equals "Invalid assignment target"
        (.ok e, st)
    else (.ok e, st)

  termination_by structural fuel a1 => fuel
/-- `Parser.or_expression`. -/
def orExpressionP : Nat → PState → PRes Node
  | 0, st => (.error "parser fuel exhausted", st)
  | fuel + 1, st =>
    pbind (andExpressionP fuel st) fun e st => orLoopP fuel e st

  termination_by structural fuel a1 => fuel
/-- Left-associative loop of `or_expression`. -/
def orLoopP : Nat → Node → PState → PRes Node
  | 0, _, st => (.error "parser fuel exhausted", st)
  | fuel + 1, e, st =>
    let (m, st) := matchT st [.OR, .BA]
    if m then
      let op := previousT st
      pbind (andExpressionP fuel st) fun r st =>
      orLoopP fuel (.BinaryExpression e op.value r) st
    else (.ok e, st)

  termination_by structural fuel a1 a2 => fuel
/-- `Parser.and_expression`. -/
def andExpressionP : Nat → PState → PRes Node
  | 0, st => (.error "parser fuel exhausted", st)
  | fuel + 1, st =>
    pbind (equalityP fuel st) fun e st => andLoopP fuel e st

  termination_by structural fuel a1 => fuel
/-- Left-associative loop of `and_expression`. -/
def andLoopP : Nat → Node → PState → PRes Node
  | 0, _, st => (.error "parser fuel exhausted", st)
  | fuel + 1, e, st =>
    let (m, st) := matchT st [.AND, .ARU]
    if m then
      let op := previousT st
      pbind (equalityP fuel st) fun r st =>
      andLoopP fuel (.BinaryExpression e op.value r) st
    else (.ok e, st)

  termination_by structural fuel a1 a2 => fuel
/-- `Parser.equality`. -/
def equalityP : Nat → PState → PRes Node
  | 0, st => (.error "parser fuel exhausted", st)
  | fuel + 1, st =>
    pbind (comparisonP fuel st) fun e st => equalityLoopP fuel e st

  termination_by structural fuel a1 => fuel
/-- Left-associative loop of `equality`. -/
def equalityLoopP : Nat → Node → PState → PRes Node
  | 0, _, st => (.error "parser fuel exhausted", st)
  | fuel + 1, e, st =>
    let (m, st) := matchT st [.NOT_EQUAL, .EQUAL]
    if m then
      let op := previousT st
      pbind (comparisonP fuel st) fun r st =>
      equalityLoopP fuel (.BinaryExpression e op.value r) st
    else (.ok e, st)

  termination_by structural fuel a1 a2 => fuel
/-- `Parser.comparison`. -/
def comparisonP : Nat → PState → PRes Node
  | 0, st => (.error "parser fuel exhausted", st)
  | fuel + 1, st =>
    pbind (termP fuel st) fun e st => comparisonLoopP fuel e st

  termination_by structural fuel a1 => fuel
/-- Left-associative loop of `comparison`. -/
def comparisonLoopP : Nat → Node → PState → PRes Node
  | 0, _, st => (.error "parser fuel exhausted", st)
  | fuel + 1, e, st =>
    let (m, st) := matchT st [.GREATER, .GREATER_EQUAL, .LESS, .LESS_EQUAL]
    if m then
      let op := previousT st
      pbind (termP fuel st) fun r st =>
      comparisonLoopP fuel (.BinaryExpression e op.value r) st
    else (.ok e, st)

  termination_by structural fuel a1 a2 => fuel
/-- `Parser.term` (additive level). -/
def termP : Nat → PState → PRes Node
  | 0, st => (.error "parser fuel exhausted", st)
  | fuel + 1, st =>
    pbind (factorP fuel st) fun e st => termLoopP fuel e st

  termination_by structural fuel a1 => fuel
/-- Left-associative loop of `term`. -/
def termLoopP : Nat → Node → PState → PRes Node
  | 0, _, st => (.error "parser fuel exhausted", st)
  | fuel + 1, e, st =>
    let (m, st) := matchT st [.MINUS, .PLUS]
    if m then
      let op := previousT st
      pbind (factorP fuel st) fun r st =>
      termLoopP fuel (.BinaryExpression e op.value r) st
    else (.ok e, st)

  termination_by structural fuel a1 a2 => fuel
/-- `Parser.factor` (multiplicative level). -/
def factorP : Nat → PState → PRes Node
  | 0, st => (.error "parser fuel exhausted", st)
  | fuel + 1, st =>
    pbind (unaryP fuel st) fun e st => factorLoopP fuel e st

  termination_by structural fuel a1 => fuel
/-- Left-associative loop of `factor`. -/
def factorLoopP : Nat → Node → PState → PRes Node
  | 0, _, st => (.error "parser fuel exhausted", st)
  | fuel + 1, e, st =>
    let (m, st) := matchT st [.DIVIDE, .MULTIPLY, .MODULO]
    if m then
      let op := previousT st
      pbind (unaryP fuel st) fun r st =>
      factorLoopP fuel (.BinaryExpression e op.value r) st
    else (.ok e, st)

  termination_by structural fuel a1 a2 => fuel
/-- `Parser.unary`. -/
def unaryP : Nat → PState → PRes Node
  | 0, st => (.error "parser fuel exhausted", st)
  | fuel + 1, st =>
    let (m, st) := matchT st [.NOT, .NOT_KORA, .MINUS]
    if m then
      let op := previousT st
      pbind (unaryP fuel st) fun r st =>
      (.ok (.UnaryExpression op.value r), st)
    else callP fuel st

  termination_by structural fuel a1 => fuel
/-- `Parser.call`: a primary followed by a postfix chain. -/
def callP : Nat → PState → PRes Node
  | 0, st => (.error "parser fuel exhausted", st)
  | fuel + 1, st =>
    pbind (primaryP fuel st) fun e st => callLoopP fuel e st

  termination_by structural fuel a1 => fuel
/-- The postfix chain loop of `Parser.call` (calls, dotted members,
bracket indexing, in any order). -/
def callLoopP : Nat → Node → PState → PRes Node
  | 0, _, st => (.error "parser fuel exhausted", st)
  | fuel + 1, e, st =>
    let (mLP, st) := matchT st [.LPAREN]
    if mLP then
      pbind (finishCallP fuel e st) fun e st => callLoopP fuel e st
    else
      let (mDot, st) := matchT st [.DOT]
      if mDot then
        pbind (consumeT st .IDENTIFIER "Expected property name after \x27.\x27") fun tok st =>
        callLoopP fuel (.MemberExpression e (.Identifier tok.value) false) st
      else
        let (mLB, st) := matchT st [.LBRACKET]
        if mLB then
          pbind (expressionP fuel st) fun idx st =>
          pbind (consumeT st .RBRACKET "Expected \x27]\x27 after array index") fun _ st =>
          callLoopP fuel (.IndexExpression e idx) st
        else (.ok e, st)

  termination_by structural fuel a1 a2 => fuel
/-- Argument list loop of `Parser.finish_call`. -/
def argsLoopP : Nat → PState → PRes (List Node)
  | 0, st => (.error "parser fuel exhausted", st)
  | fuel + 1, st =>
    pbind (expressionP fuel st) fun a st =>
    let (m, st) := matchT st [.COMMA]
    if m then
      pbind (argsLoopP fuel st) fun rest st => (.ok (a :: rest), st)
    else (.ok [a], st)

  termination_by structural fuel a1 => fuel
/-- `Parser.finish_call`. -/
def finishCallP : Nat → Node → PState → PRes Node
  | 0, _, st => (.error "parser fuel exhausted", st)
  | fuel + 1, callee, st =>
    let argsPart : PRes (List Node) :=
      if !(checkT st .RPAREN) then argsLoopP fuel st else (.ok [], st)
    pbind argsPart fun args st =>
    pbind (consumeT st .RPAREN "Expected \x27)\x27 after arguments") fun _ st =>
    (.ok (.CallExpression callee args), st)

  termination_by structural fuel a1 a2 => fuel
/-- `Parser.primary`. -/
def primaryP : Nat → PState → PRes Node
  | 0, st => (.error "parser fuel exhausted", st)
  | fuel + 1, st =>
    let (mFalse, st) := matchT st [.FALSE, .MISA]
    if mFalse then (.ok (.Literal (.bool false)), st) else
    let (mTrue, st) := matchT st [.TRUE, .HOSA]
    if mTrue then (.ok (.Literal (.bool true)), st) else
    let (mNull, st) := matchT st [.NULL, .NAI]
    if mNull then (.ok (.Literal .null), st) else
    let (mInt, st) := matchT st [.INT]
    if mInt then (.ok (.Literal (.int (intOfLexeme (previousT st).value))), st) else
    let (mFloat, st) := matchT st [.FLOAT]
    if mFloat then (.ok (.Literal (.float (ratOfLexeme (previousT st).value))), st) else
    let (mStr, st) := matchT st [.STRING]
    if mStr then (.ok (.Literal (.str (previousT st).value)), st) else
    let (mId, st) := matchT st [.IDENTIFIER]
    if mId then (.ok (.Identifier (previousT st).value), st) else
    let (mLP, st) := matchT st [.LPAREN]
    if mLP then
      pbind (expressionP fuel st) fun e st =>
      pbind (consumeT st .RPAREN "Expected \x27)\x27 after expression") fun _ st =>
      (.ok e, st)
    else
    let (mLB, st) := matchT st [.LBRACKET]
    if mLB then arrayExpressionP fuel st else
    let (mBrace, st) := matchT st [.LBRACE]
    if mBrace then objectExpressionP fuel st
    else
      let (m, st) := errorT st (peekT st) "Expected expression"
      (.error m, st)

  termination_by structural fuel a1 => fuel
/-- Element loop of `Parser.array_expression`. -/
def arrayElemsLoopP : Nat → PState → PRes (List Node)
  | 0, st => (.error "parser fuel exhausted", st)
  | fuel + 1, st =>
    pbind (expressionP fuel st) fun a st =>
    let (m, st) := matchT st [.COMMA]
    if m then
      pbind (arrayElemsLoopP fuel st) fun rest st => (.ok (a :: rest), st)
    else (.ok [a], st)

  termination_by structural fuel a1 => fuel
/-- `Parser.array_expression` (the `[` already consumed). -/
def arrayExpressionP : Nat → PState → PRes Node
  | 0, st => (.error "parser fuel exhausted", st)
  | fuel + 1, st =>
    let elemsPart : PRes (List Node) :=
      if !(checkT st .RBRACKET) then arrayElemsLoopP fuel st else (.ok [], st)
    pbind elemsPart fun elems st =>
    pbind (consumeT st .RBRACKET "Expected \x27]\x27 after array elements") fun _ st =>
    (.ok (.ArrayExpression elems), st)

  termination_by structural fuel a1 => fuel
/-- Property loop of `Parser.object_expression`. -/
def objectPropsLoopP : Nat → PState → PRes (List (String × Node))
  | 0, st => (.error "parser fuel exhausted", st)
  | fuel + 1, st =>
    pbind (consumeT st .IDENTIFIER "Expected property name") fun nameTok st =>
    pbind (consumeT st .COLON "Expected \x27:\x27 after property name") fun _ st =>
    pbind (expressionP fuel st) fun v st =>
    let (m, st) := matchT st [.COMMA]
    if m then
      pbind (objectPropsLoopP fuel st) fun rest st =>
      (.ok ((nameTok.value, v) :: rest), st)
    else (.ok [(nameTok.value, v)], st)

  termination_by structural fuel a1 => fuel
/-- `Parser.object_expression` (the `\x7b` already consumed). -/
def objectExpressionP : Nat → PState → PRes Node
  | 0, st => (.error "parser fuel exhausted", st)
  | fuel + 1, st =>
    let propsPart : PRes (List (String × Node)) :=
      if !(checkT st .RBRACE) then objectPropsLoopP fuel st else (.ok [], st)
    pbind propsPart fun props st =>
    pbind (consumeT st .RBRACE "Expected \x27\x7d\x27 after object properties") fun _ st =>
    (.ok (.ObjectExpression props), st)

  termination_by structural fuel a1 => fuel
end

/-- The `while not self.is_at_end()` loop of `Parser.parse`:
`declaration` catches its own errors, so the outer handler of `parse`
is unreachable on its output (mirrored anyway). -/
def parseLoop : Nat → PState → List Node × PState
  | 0, st => ([], st)
  | fuel + 1, st =>
    if pIsAtEnd st then ([], st)
    else
      match declarationP fuel st with
      | (.ok (some n), st') =>
        let (ns, st'') := parseLoop fuel st'
        (n :: ns, st'')
      | (.ok none, st') => parseLoop fuel st'
      | (.error m, st') =>
        let st'' := synchronize { st' with errors := st'.errors ++ [m] }
        parseLoop fuel st''

/-- `Parser.parse`: produce the `Program` and the final parser state
(whose `errors` field is the accumulated diagnostics list). -/
def parseTokens (fuel : Nat) (tokens : List Token) : Program × PState :=
  let st : PState := ⟨tokens, 0, []⟩
  let (stmts, st') := parseLoop fuel st
  (⟨stmts⟩, st')

/-- Lex then parse, the pipeline the repository's tests use; a lexical
failure yields an empty program (not used for lexically valid inputs). -/
def parseSource (source : String) : Program × PState :=
  match tokenize source with
  | .ok ts => parseTokens 60 ts
  | .error _ => (⟨[]⟩, ⟨[], 0, []⟩)

/-! ## Runtime values and environments (interpreter.py)

Host aliasing of arrays/objects (multiple bindings sharing one mutable
list/dict) is not modelled: arrays and objects are carried by value.  No
claim in scope depends on aliasing.  Built-in callables are represented by
first-order codes dispatched by `applyBuiltin`; host console/file I/O is
outside the model. -/

/-- Codes for the host-registered built-in callables of
`Interpreter._init_stdlib` (one per underlying method), plus the bound
methods a host `getattr` on a dict can produce. -/
inductive BuiltinFn where
  | printB | lenB | rangeB | inputB | intB | floatB | stringB | boolB
  | randomB | timeB | sleepB | clearB | appendB | removeB | sortB | reverseB
  | findB | replaceB | splitB | joinB | upperB | lowerB
  | roundB | floorB | ceilB | absB | sqrtB | powB | sinB | cosB | tanB
  | logB | expB | minB | maxB | sumB | averageB | countB
  | copyB | deleteB | checkB | convertB | formatB | validateB | errorB
  | dictMethod (name : String)
deriving DecidableEq, Repr

/-- Runtime values.  `vfun` is `HixaFunction` (declaration pieces plus the
captured defining environment, a frame id); `vbuiltin` is a host callable. -/
inductive Value where
  | vnull
  | vbool (b : Bool)
  | vint (n : Int)
  | vfloat (q : Rat)
  | vstr (s : String)
  | varr (elements : List Value)
  | vobj (properties : List (String × Value))
  | vfun (name : String) (parameters : List Param) (body : Node) (closure : Nat)
  | vbuiltin (b : BuiltinFn)
deriving Repr

/-- Evaluation outcome: a normal value, the `Return` control signal, the
uniform `RuntimeError` category, another host exception (AttributeError,
TypeError, ...), or fuel exhaustion (host nontermination). -/
inductive Outcome where
  | ok (v : Value)
  | retSig (v : Value)
  | rtErr (msg : String)
  | hostErr (msg : String)
  | timeout
deriving Repr

/-- One environment frame (`class Environment`): an insertion-ordered
name/value mapping plus an optional enclosing frame reference. -/
structure Frame where
  values : List (String × Value)
  enclosing : Option Nat
deriving Repr

/-- Interpreter state: the heap of frames (a frame's id is its index,
allocation appends) and the interpreter's current-environment reference
(`self.environment`).  Frame 0 is `self.globals`. -/
structure InterpState where
  frames : List Frame
  currentEnv : Nat
deriving Repr

/-- Host dict insert/update: replace in place if the key exists, else
append (mirrors `self.values[name] = value` on a Python dict). -/
def defineVar (vals : List (String × Value)) (n : String) (v : Value) :
    List (String × Value) :=
  if vals.any (fun p => p.1 == n) then
    vals.map (fun p => if p.1 == n then (n, v) else p)
  else vals ++ [(n, v)]

/-- `Environment.define` on the current frame of the state. -/
def envDefine (st : InterpState) (n : String) (v : Value) : InterpState :=
  let fr := st.frames.getD st.currentEnv ⟨[], none⟩
  { st with frames := st.frames.set st.currentEnv ⟨defineVar fr.values n v, fr.enclosing⟩ }

/-- `Environment.get`: walk the chain from a frame outward.  The depth
bound only guards against cyclic frame graphs, which allocation order
makes unreachable. -/
def envGetAux (frames : List Frame) : Nat → Nat → String → Option Value
  | 0, _, _ => none
  | depth + 1, fid, n =>
    let fr := frames.getD fid ⟨[], none⟩
    match List.lookup n fr.values with
    | some v => some v
    | none =>
      match fr.enclosing with
      | some p => envGetAux frames depth p n
      | none => none

/-- Variable lookup from the state's current environment
(`Interpreter.lookup_variable`, which ignores the resolver side table). -/
def envGet (st : InterpState) (n : String) : Option Value :=
  envGetAux st.frames (st.frames.length + 1) st.currentEnv n

/-- `Environment.assign`: rewrite the binding in the frame where the name
is already bound, walking outward; `none` when unbound everywhere. -/
def envAssignAux (frames : List Frame) : Nat → Nat → String → Value → Option (List Frame)
  | 0, _, _, _ => none
  | depth + 1, fid, n, v =>
    let fr := frames.getD fid ⟨[], none⟩
    if fr.values.any (fun p => p.1 == n) then
      some (frames.set fid ⟨defineVar fr.values n v, fr.enclosing⟩)
    else
      match fr.enclosing with
      | some p => envAssignAux frames depth p n v
      | none => none

/-- Assignment from the state's current environment. -/
def envAssign (st : InterpState) (n : String) (v : Value) : Option InterpState :=
  (envAssignAux st.frames (st.frames.length + 1) st.currentEnv n v).map
    (fun fs => { st with frames := fs })

/-- Allocate a fresh frame with the given enclosing frame
(`Environment(enclosing)`), returning its id. -/
def allocFrame (st : InterpState) (parent : Nat) : Nat × InterpState :=
  (st.frames.length, { st with frames := st.frames ++ [⟨[], some parent⟩] })

/-- Bind parameters positionally to arguments in a frame
(`for param, arg in zip(...): environment.define(param.name, arg)`). -/
def bindParams (params : List Param) (args : List Value) (fid : Nat)
    (st : InterpState) : InterpState :=
  let fr := st.frames.getD fid ⟨[], none⟩
  let vs := (params.zip args).foldl (fun vs pa => defineVar vs pa.1.name pa.2) fr.values
  { st with frames := st.frames.set fid ⟨vs, fr.enclosing⟩ }

/-! ## Operator semantics (interpreter.py helper methods) -/

/-- `Interpreter._is_truthy`: null is false, a boolean is itself,
everything else is true. -/
def isTruthy : Value → Bool
  | .vnull => false
  | .vbool b => b
  | _ => true

/-- Host view of a value as a Python `int`: note that a host `bool` passes
`isinstance(x, int)` (True counts as 1, False as 0). -/
def asHostInt : Value → Option Int
  | .vint n => some n
  | .vbool b => some (if b then 1 else 0)
  | _ => none

/-- Host view of a value as a Python number (`isinstance(x, (int, float))`,
which admits bools). -/
def asHostNum : Value → Option Rat
  | .vint n => some (n : Rat)
  | .vfloat q => some q
  | .vbool b => some (if b then 1 else 0)
  | _ => none

/-- `isinstance(v, (int, float))` as a Bool. -/
def isHostNum (v : Value) : Bool := (asHostNum v).isSome

/-- `isinstance(v, int)` as a Bool. -/
def isHostInt (v : Value) : Bool := (asHostInt v).isSome

/-- `Interpreter._add`: numeric addition, string concatenation, else a
type error.  Host arithmetic: int+int stays int, any float makes a float. -/
def hixaAdd (l r : Value) : Outcome :=
  match asHostInt l, asHostInt r with
  | some a, some b => .ok (.vint (a + b))
  | _, _ =>
    match asHostNum l, asHostNum r with
    | some a, some b => .ok (.vfloat (a + b))
    | _, _ =>
      match l, r with
      | .vstr a, .vstr b => .ok (.vstr (a ++ b))
      | _, _ => .rtErr "Operands must be two numbers or two strings"

/-- `Interpreter._subtract`. -/
def hixaSub (l r : Value) : Outcome :=
  match asHostInt l, asHostInt r with
  | some a, some b => .ok (.vint (a - b))
  | _, _ =>
    match asHostNum l, asHostNum r with
    | some a, some b => .ok (.vfloat (a - b))
    | _, _ => .rtErr "Operands must be numbers"

/-- `Interpreter._multiply`. -/
def hixaMul (l r : Value) : Outcome :=
  match asHostInt l, asHostInt r with
  | some a, some b => .ok (.vint (a * b))
  | _, _ =>
    match asHostNum l, asHostNum r with
    | some a, some b => .ok (.vfloat (a * b))
    | _, _ => .rtErr "Operands must be numbers"

/-- `Interpreter._divide`: numbers only, zero right operand is a runtime
error, and host `/` is true division (the result is a float even for two
ints). -/
def hixaDiv (l r : Value) : Outcome :=
  match asHostNum l, asHostNum r with
  | some a, some b =>
    if b = 0 then .rtErr "Division by zero" else .ok (.vfloat (a / b))
  | _, _ => .rtErr "Operands must be numbers"

/-- `Interpreter._modulo`: `isinstance(..., int)` on both operands (floats
are rejected), zero right operand is a runtime error; host `%` on ints is
floor modulo (`Int.fmod`). -/
def hixaMod (l r : Value) : Outcome :=
  match asHostInt l, asHostInt r with
  | some a, some b =>
    if b = 0 then .rtErr "Modulo by zero" else .ok (.vint (Int.fmod a b))
  | _, _ => .rtErr "Operands must be integers"

/-- Host `==` (fuel-driven for the recursion through lists and dicts):
numbers compare across int/float/bool, sequences elementwise, dicts by
key set (order-insensitively); distinct host types are unequal.  Host
object identity (functions) is not modelled, defaulting to False. -/
def pyEq : Nat → Value → Value → Bool
  | 0, _, _ => false
  | fuel + 1, l, r =>
    match asHostNum l, asHostNum r with
    | some a, some b => a == b
    | _, _ =>
      match l, r with
      | .vnull, .vnull => true
      | .vstr a, .vstr b => a == b
      | .varr xs, .varr ys =>
        xs.length == ys.length &&
          (xs.zip ys).all (fun p => pyEq fuel p.1 p.2)
      | .vobj xs, .vobj ys =>
        xs.length == ys.length &&
          xs.all (fun kv =>
            match List.lookup kv.1 ys with
            | some w => pyEq fuel kv.2 w
            | none => false)
      | _, _ => false

/-- Comparison helper shared by `_less`/`_less_equal`/`_greater`/
`_greater_equal`: two host numbers or a type error. -/
def hixaCompare (cmp : Rat → Rat → Bool) (l r : Value) : Outcome :=
  match asHostNum l, asHostNum r with
  | some a, some b => .ok (.vbool (cmp a b))
  | _, _ => .rtErr "Operands must be numbers"

/-- `Interpreter._negate` (unary minus; bools are host ints). -/
def hixaNegate (v : Value) : Outcome :=
  match asHostInt v with
  | some a => .ok (.vint (-a))
  | none =>
    match v with
    | .vfloat q => .ok (.vfloat (-q))
    | _ => .rtErr "Operand must be a number"

/-- The operator dispatch of `Interpreter.visit_binary_expression`,
applied to the two already-evaluated operands.  `&&`/`||` coerce both
operands by truthiness (both already evaluated: no short-circuit). -/
def applyBinary (op : String) (l r : Value) : Outcome :=
  if op = "+" then hixaAdd l r
  else if op = "-" then hixaSub l r
  else if op = "*" then hixaMul l r
  else if op = "/" then hixaDiv l r
  else if op = "%" then hixaMod l r
  else if op = "==" then .ok (.vbool (pyEq 1000 l r))
  else if op = "!=" then .ok (.vbool (!(pyEq 1000 l r)))
  else if op = "<" then hixaCompare (· < ·) l r
  else if op = "<=" then hixaCompare (· ≤ ·) l r
  else if op = ">" then hixaCompare (fun a b => b < a) l r
  else if op = ">=" then hixaCompare (fun a b => b ≤ a) l r
  else if op = "&&" then .ok (.vbool (isTruthy l && isTruthy r))
  else if op = "||" then .ok (.vbool (isTruthy l || isTruthy r))
  else .rtErr ("Unknown binary operator: " ++ op)

/-- The operator dispatch of `Interpreter.visit_unary_expression`. -/
def applyUnary (op : String) (v : Value) : Outcome :=
  if op = "-" then hixaNegate v
  else if op = "!" then .ok (.vbool (!(isTruthy v)))
  else .rtErr ("Unknown unary operator: " ++ op)

/-- Host type name used in AttributeError messages. -/
def hostTypeName : Value → String
  | .vnull => "NoneType"
  | .vbool _ => "bool"
  | .vint _ => "int"
  | .vfloat _ => "float"
  | .vstr _ => "str"
  | .varr _ => "list"
  | .vobj _ => "dict"
  | .vfun _ _ _ _ => "HixaFunction"
  | .vbuiltin _ => "method"

/-- Attribute names a host dict actually has (its methods); `getattr` on a
dict returns a bound method for these and raises AttributeError for every
other name — it never performs a key lookup. -/
def dictAttrNames : List String :=
  ["clear", "copy", "fromkeys", "get", "items", "keys", "pop", "popitem",
   "setdefault", "update", "values"]

/-- Host `getattr(object_, name)` as used by
`Interpreter.visit_member_expression`.  Only the dict case is modelled
precisely; the attribute tables of other host types are summarized as an
AttributeError (no claim depends on them). -/
def getattrValue (v : Value) (name : String) : Outcome :=
  match v with
  | .vobj _ =>
    if dictAttrNames.contains name then .ok (.vbuiltin (.dictMethod name))
    else .hostErr ("AttributeError: \x27dict\x27 object has no attribute \x27"
      ++ name ++ "\x27")
  | _ => .hostErr ("AttributeError: \x27" ++ hostTypeName v
      ++ "\x27 object has no attribute \x27" ++ name ++ "\x27")

/-- A few built-ins modelled behaviourally (`_len`, `_error`, `_print`);
the rest of the catalog is out of the specified core ("interfaces only"),
so applying one is summarized as a host-level error.  What matters for the
claims is that the evaluator invokes `applyBuiltin` with whatever argument
list was supplied: any arity enforcement happens here, inside the callable,
as a host `TypeError`, never as an evaluator check. -/
def applyBuiltin (b : BuiltinFn) (args : List Value) (st : InterpState) :
    Outcome × InterpState :=
  match b with
  | .printB => (.ok .vnull, st)
  | .lenB =>
    match args with
    | [v] =>
      match v with
      | .vstr s => (.ok (.vint s.length), st)
      | .varr xs => (.ok (.vint xs.length), st)
      | _ => (.rtErr "len() can only be called on strings and arrays", st)
    | _ => (.hostErr "TypeError: len() takes exactly one argument", st)
  | .errorB =>
    match args with
    | [.vstr m] => (.rtErr m, st)
    | _ => (.hostErr "TypeError: error_kora argument not modelled", st)
  | _ => (.hostErr "host builtin outside the modelled core", st)

/-- The global bindings installed by `Interpreter._init_stdlib`, in source
order. -/
def initGlobals : List (String × Value) :=
  [ ("print", .vbuiltin .printB), ("len", .vbuiltin .lenB),
    ("range", .vbuiltin .rangeB), ("input", .vbuiltin .inputB),
    ("int", .vbuiltin .intB), ("float", .vbuiltin .floatB),
    ("string", .vbuiltin .stringB), ("bool", .vbuiltin .boolB),
    ("print_kora", .vbuiltin .printB), ("likha", .vbuiltin .printB),
    ("length_kora", .vbuiltin .lenB), ("input_lou", .vbuiltin .inputB),
    ("random_kora", .vbuiltin .randomB), ("time_kora", .vbuiltin .timeB),
    ("sleep_kora", .vbuiltin .sleepB), ("clear_kora", .vbuiltin .clearB),
    ("add_kora", .vbuiltin .appendB), ("remove_kora", .vbuiltin .removeB),
    ("sort_kora", .vbuiltin .sortB), ("reverse_kora", .vbuiltin .reverseB),
    ("bisora", .vbuiltin .findB), ("replace_kora", .vbuiltin .replaceB),
    ("split_kora", .vbuiltin .splitB), ("join_kora", .vbuiltin .joinB),
    ("upper_kora", .vbuiltin .upperB), ("lower_kora", .vbuiltin .lowerB),
    ("round_kora", .vbuiltin .roundB), ("floor_kora", .vbuiltin .floorB),
    ("ceil_kora", .vbuiltin .ceilB), ("abs_kora", .vbuiltin .absB),
    ("sqrt_kora", .vbuiltin .sqrtB), ("pow_kora", .vbuiltin .powB),
    ("sin_kora", .vbuiltin .sinB), ("cos_kora", .vbuiltin .cosB),
    ("tan_kora", .vbuiltin .tanB), ("log_kora", .vbuiltin .logB),
    ("exp_kora", .vbuiltin .expB), ("min_kora", .vbuiltin .minB),
    ("max_kora", .vbuiltin .maxB), ("sum_kora", .vbuiltin .sumB),
    ("average_kora", .vbuiltin .averageB), ("count_kora", .vbuiltin .countB),
    ("copy_kora", .vbuiltin .copyB), ("delete_kora", .vbuiltin .deleteB),
    ("check_kora", .vbuiltin .checkB), ("convert_kora", .vbuiltin .convertB),
    ("format_kora", .vbuiltin .formatB), ("validate_kora", .vbuiltin .validateB),
    ("error_kora", .vbuiltin .errorB) ]

/-- A fresh interpreter: one global frame pre-populated with the built-in
registry, and the current environment pointing at it. -/
def initState : InterpState := ⟨[⟨initGlobals, none⟩], 0⟩

/-- The `try/except Return` tail of `HixaFunction.call`: a Return signal
is caught at the call boundary and becomes the call's value; normal
completion yields None; anything else propagates. -/
def catchReturn : Outcome × InterpState → Outcome × InterpState
  | (.retSig v, s) => (.ok v, s)
  | (.ok _, s) => (.ok .vnull, s)
  | other => other

/-- `Literal` payload to runtime value (`visit_literal` returns the stored
host value). -/
def litValue : LitVal → Value
  | .int n => .vint n
  | .float q => .vfloat q
  | .str s => .vstr s
  | .bool b => .vbool b
  | .null => .vnull

/-! ## The tree-walking evaluator

One mutual block, fuel-driven: every recursive call strictly decreases
the fuel, so a large enough fuel reproduces the host behaviour exactly on
terminating runs, with `timeout` standing for host nontermination. -/

mutual

/-- The visitor dispatch: `Interpreter.execute` / `Interpreter.evaluate`
(one method — statements are nodes that return `None`). -/
def evalNode : Nat → Node → InterpState → Outcome × InterpState
  | 0, _, st => (.timeout, st)
  | fuel + 1, node, st =>
    match node with
    | .Literal v => (.ok (litValue v), st)
    | .Identifier n =>
      match envGet st n with
      | some v => (.ok v, st)
      | none => (.rtErr ("Undefined variable \x27" ++ n ++ "\x27"), st)
    | .BinaryExpression l op r =>
      match evalNode fuel l st with
      | (.ok lv, st1) =>
        match evalNode fuel r st1 with
        | (.ok rv, st2) => (applyBinary op lv rv, st2)
        | other => other
      | other => other
    | .UnaryExpression op e =>
      match evalNode fuel e st with
      | (.ok v, st1) => (applyUnary op v, st1)
      | other => other
    | .CallExpression callee args =>
      match evalNode fuel callee st with
      | (.ok cv, st1) =>
        match evalArgsE fuel args st1 with
        | (.ok vs, st2) => callValue fuel cv vs st2
        | (.error out, st2) => (out, st2)
      | other => other
    | .AssignmentExpression target _op valueE =>
      match evalNode fuel valueE st with
      | (.ok v, st1) =>
        match target with
        | .Identifier n =>
          match envAssign st1 n v with
          | some st2 => (.ok v, st2)
          | none => (.rtErr ("Undefined variable \x27" ++ n ++ "\x27"), st1)
        | .MemberExpression objE propE _ =>
          match evalNode fuel objE st1 with
          | (.ok ov, st2) =>
            match propE with
            | .Identifier pname =>
              -- setattr on a host dict (or any other Hixa runtime value)
              -- raises AttributeError; no Hixa value has settable host
              -- attributes.
              (.hostErr ("AttributeError: \x27" ++ hostTypeName ov
                ++ "\x27 object has no settable attribute \x27" ++ pname ++ "\x27"), st2)
            | _ => (.rtErr "Only identifiers can be used as object properties", st2)
          | other => other
        | _ => (.rtErr "Invalid assignment target", st1)
      | other => other
    | .MemberExpression objE propE _ =>
      match evalNode fuel objE st with
      | (.ok ov, st1) =>
        match propE with
        | .Identifier pname => (getattrValue ov pname, st1)
        | _ => (.rtErr "Only identifiers can be used as object properties", st1)
      | other => other
    | .IndexExpression arrE idxE =>
      match evalNode fuel arrE st with
      | (.ok av, st1) =>
        match evalNode fuel idxE st1 with
        | (.ok iv, st2) =>
          match av with
          | .varr xs =>
            match asHostInt iv with
            | some i =>
              if i < 0 || (xs.length : Int) ≤ i then
                (.rtErr "Array index out of bounds", st2)
              else (.ok (xs.getD i.toNat .vnull), st2)
            | none => (.rtErr "Array index must be an integer", st2)
          | _ => (.rtErr "Only arrays can be indexed", st2)
        | other => other
      | other => other
    | .ArrayExpression es =>
      match evalArgsE fuel es st with
      | (.ok vs, st1) => (.ok (.varr vs), st1)
      | (.error out, st1) => (out, st1)
    | .ObjectExpression props =>
      match evalPropsE fuel props [] st with
      | (.ok pvs, st1) => (.ok (.vobj pvs), st1)
      | (.error out, st1) => (out, st1)
    | .VariableDeclaration name _ty ini =>
      match ini with
      | some e =>
        match evalNode fuel e st with
        | (.ok v, st1) => (.ok .vnull, envDefine st1 name v)
        | other => other
      | none => (.ok .vnull, envDefine st name .vnull)
    | .FunctionDeclaration name params _retTy body =>
      (.ok .vnull, envDefine st name (.vfun name params body st.currentEnv))
    | .BlockStatement ss =>
      -- visit_block_statement: execute_block(statements, Environment(current))
      let (fid, st1) := allocFrame st st.currentEnv
      execBlock fuel ss fid st1
    | .IfStatement cond thenB elseB =>
      match evalNode fuel cond st with
      | (.ok cv, st1) =>
        if isTruthy cv then
          match evalNode fuel thenB st1 with
          | (.ok _, st2) => (.ok .vnull, st2)
          | other => other
        else
          match elseB with
          | some e =>
            match evalNode fuel e st1 with
            | (.ok _, st2) => (.ok .vnull, st2)
            | other => other
          | none => (.ok .vnull, st1)
      | other => other
    | .WhileStatement cond body => whileLoop fuel cond body st
    | .ForStatement ini cond incr body =>
      match ini with
      | some i =>
        match evalNode fuel i st with
        | (.ok _, st1) => forLoop fuel cond incr body st1
        | other => other
      | none => forLoop fuel cond incr body st
    | .ReturnStatement vOpt =>
      match vOpt with
      | some e =>
        match evalNode fuel e st with
        | (.ok v, st1) => (.retSig v, st1)
        | other => other
      | none => (.retSig .vnull, st)

  termination_by structural fuel a1 a2 => fuel
/-- Left-to-right evaluation of an expression list (call arguments, array
elements); an abnormal outcome aborts the list. -/
def evalArgsE : Nat → List Node → InterpState → Except Outcome (List Value) × InterpState
  | 0, _, st => (.error .timeout, st)
  | _ + 1, [], st => (.ok [], st)
  | fuel + 1, e :: es, st =>
    match evalNode fuel e st with
    | (.ok v, st1) =>
      match evalArgsE fuel es st1 with
      | (.ok vs, st2) => (.ok (v :: vs), st2)
      | other => other
    | (out, st1) => (.error out, st1)

  termination_by structural fuel a1 a2 => fuel
/-- `visit_object_expression`'s property loop, building the host dict with
insert-or-update semantics (a duplicate key overwrites in place). -/
def evalPropsE : Nat → List (String × Node) → List (String × Value) → InterpState →
    Except Outcome (List (String × Value)) × InterpState
  | 0, _, _, st => (.error .timeout, st)
  | _ + 1, [], acc, st => (.ok acc, st)
  | fuel + 1, (k, e) :: ps, acc, st =>
    match evalNode fuel e st with
    | (.ok v, st1) => evalPropsE fuel ps (defineVar acc k v) st1
    | (out, st1) => (.error out, st1)

  termination_by structural fuel a1 a2 a3 => fuel
/-- Sequential statement execution (the loop bodies of `interpret` and
`execute_block`); the first abnormal outcome propagates. -/
def execStmts : Nat → List Node → InterpState → Outcome × InterpState
  | 0, _, st => (.timeout, st)
  | _ + 1, [], st => (.ok .vnull, st)
  | fuel + 1, s :: ss, st =>
    match evalNode fuel s st with
    | (.ok _, st1) => execStmts fuel ss st1
    | other => other

  termination_by structural fuel a1 a2 => fuel
/-- `Interpreter.execute_block`: remember the current environment, switch
to the given frame, run the statements, and — the `finally` — restore the
remembered environment whatever the outcome. -/
def execBlock : Nat → List Node → Nat → InterpState → Outcome × InterpState
  | 0, _, _, st => (.timeout, st)
  | fuel + 1, ss, envId, st =>
    let previous := st.currentEnv
    let (out, st1) := execStmts fuel ss { st with currentEnv := envId }
    (out, { st1 with currentEnv := previous })

  termination_by structural fuel a1 a2 a3 => fuel
/-- The call dispatch of `Interpreter.visit_call_expression` (after the
callee and arguments have been evaluated), inlining `HixaFunction.call`:
user functions get a strict arity check and a fresh frame parented to the
captured closure, with the `Return` signal caught at this boundary;
a host callable is applied as-is, with no evaluator-imposed arity check;
anything else is "Can only call functions". -/
def callValue : Nat → Value → List Value → InterpState → Outcome × InterpState
  | 0, _, _, st => (.timeout, st)
  | fuel + 1, cv, args, st =>
    match cv with
    | .vfun _name params body closure =>
      if args.length ≠ params.length then
        (.rtErr ("Expected " ++ toString params.length ++ " arguments but got "
          ++ toString args.length), st)
      else
        let (fid, st1) := allocFrame st closure
        let st2 := bindParams params args fid st1
        match body with
        | .BlockStatement ss => catchReturn (execBlock fuel ss fid st2)
        | _ =>
          -- parser output always wraps bodies in BlockStatement; reading
          -- `.statements` off anything else would be a host AttributeError
          (.hostErr "AttributeError: function body is not a block", st2)
    | .vbuiltin b => applyBuiltin b args st
    | _ => (.rtErr "Can only call functions", st)

  termination_by structural fuel a1 a2 a3 => fuel
/-- The `while` execution loop of `visit_while_statement`. -/
def whileLoop : Nat → Node → Node → InterpState → Outcome × InterpState
  | 0, _, _, st => (.timeout, st)
  | fuel + 1, cond, body, st =>
    match evalNode fuel cond st with
    | (.ok cv, st1) =>
      if isTruthy cv then
        match evalNode fuel body st1 with
        | (.ok _, st2) => whileLoop fuel cond body st2
        | other => other
      else (.ok .vnull, st1)
    | other => other

  termination_by structural fuel a1 a2 a3 => fuel
/-- The `while True` loop of `visit_for_statement` (condition test, body,
then increment). -/
def forLoop : Nat → Option Node → Option Node → Node → InterpState →
    Outcome × InterpState
  | 0, _, _, _, st => (.timeout, st)
  | fuel + 1, cond, incr, body, st =>
    let afterCond : Except Outcome Bool × InterpState :=
      match cond with
      | some c =>
        match evalNode fuel c st with
        | (.ok cv, st1) => (.ok (isTruthy cv), st1)
        | (out, st1) => (.error out, st1)
      | none => (.ok true, st)
    match afterCond with
    | (.ok keepGoing, st1) =>
      if keepGoing then
        match evalNode fuel body st1 with
        | (.ok _, st2) =>
          match incr with
          | some i =>
            match evalNode fuel i st2 with
            | (.ok _, st3) => forLoop fuel cond incr body st3
            | other => other
          | none => forLoop fuel cond incr body st2
        | other => other
      else (.ok .vnull, st1)
    | (.error out, st1) => (out, st1)

  termination_by structural fuel a1 a2 a3 a4 => fuel
end

/-- `Interpreter.interpret`: run the top-level statements; the
`except RuntimeError: raise` handler re-raises unchanged, and notably does
not catch the `Return` control signal, which therefore escapes to the
caller. -/
def interpret (fuel : Nat) (statements : List Node) (st : InterpState) :
    Outcome × InterpState :=
  match execStmts fuel statements st with
  | (.rtErr m, st1) => (.rtErr m, st1)
  | other => other

/-! ## Theorems settling the claims -/

/-- C1: evaluating `\x7ba: 1\x7d.a` — a member access on an object literal
that binds the identifier key `a` — does not return the bound value 1;
the evaluator performs a host attribute lookup on the dict, which raises
a host AttributeError, an exception outside the uniform runtime-error
category. -/
theorem claimC1memberAccessOnObjectLiteral :
    evalNode 20
      (.MemberExpression (.ObjectExpression [("a", .Literal (.int 1))])
        (.Identifier "a") false) initState
      = (.hostErr "AttributeError: \x27dict\x27 object has no attribute \x27a\x27",
         initState) := by
  rfl

set_option maxRecDepth 100000 in
set_option maxHeartbeats 1000000 in
/-- C2: the three statement terminators are not interchangeable and the
parser is not token-clean across consecutive variable declarations.  With
two semicolon-terminated declarations, the extra `advance()` after the
consumed semicolon swallows the second `let`, so the second declaration
parses as a bare assignment expression, not a variable declaration (with
no error recorded).  With an end-of-input-terminated declaration, the
dead `check(EOF)` test makes parsing fail and record errors instead of
accepting the declaration. -/
theorem claimC2terminatorHandling :
    (parseSource "let x = 1; let y = 2;").1.statements
        = [.VariableDeclaration "x" none (some (.Literal (.int 1))),
           .AssignmentExpression (.Identifier "y") "=" (.Literal (.int 2))]
      ∧ (parseSource "let x = 1; let y = 2;").2.errors = []
      ∧ (parseSource "let x = 1").1.statements = []
      ∧ (parseSource "let x = 1").2.errors
          = ["Error at line 1, column 10: Expected \x27;\x27 or newline after variable declaration",
             "Error parsing declaration: Error at line 1, column 10: Expected \x27;\x27 or newline after variable declaration"] := by
  exact ⟨rfl, rfl, rfl, rfl⟩

/-- C3 counterexample: tokenizing the alias pair `let`/`dhora` at the same
source position yields tokens of two *different* kinds (`LET` vs `DHORA`),
refuting "both spellings are mapped to the same token kind". -/
theorem claimC3sameKindCounterexample :
    tokenize "let" = .ok [⟨.LET, "let", 1, 1⟩, ⟨.EOF, "", 1, 4⟩]
      ∧ tokenize "dhora" = .ok [⟨.DHORA, "dhora", 1, 1⟩, ⟨.EOF, "", 1, 6⟩]
      ∧ TokType.LET ≠ TokType.DHORA := by
  exact ⟨rfl, rfl, by decide⟩

/-- The keyword alias pairs of the two vocabularies: primary spelling with
its kind, alias spelling with its kind. -/
def aliasPairs : List ((String × TokType) × (String × TokType)) :=
  [ (("let", .LET), ("dhora", .DHORA)),
    (("fn", .FN), ("kam", .KAM)),
    (("if", .IF), ("jodi", .JODI)),
    (("else", .ELSE), ("nohole", .NOHOLE)),
    (("while", .WHILE), ("jetialoike", .JETIALOIKE)),
    (("for", .FOR), ("karone", .KARONE)),
    (("return", .RETURN), ("ghurai_diya", .GHAURAI_DIYA)),
    (("true", .TRUE), ("hosa", .HOSA)),
    (("false", .FALSE), ("misa", .MISA)),
    (("null", .NULL), ("nai", .NAI)) ]

set_option maxRecDepth 400000 in
set_option maxHeartbeats 8000000 in
/-- C3 amended: for every keyword alias pair, tokenizing either spelling
at the same source position yields a single keyword token at the same
line and column, but with each spelling classified under its *own*
dedicated keyword kind (the two kinds are distinct); the parser accepts
the two kinds interchangeably wherever that keyword is expected, so
aliased programs parse to identical syntax trees with identical
diagnostics. -/
theorem claimC3aliasPairsAmended :
    (∀ p ∈ aliasPairs,
      tokenize p.1.1 = .ok [⟨p.1.2, p.1.1, 1, 1⟩, ⟨.EOF, "", 1, p.1.1.length + 1⟩]
        ∧ tokenize p.2.1 = .ok [⟨p.2.2, p.2.1, 1, 1⟩, ⟨.EOF, "", 1, p.2.1.length + 1⟩]
        ∧ p.1.2 ≠ p.2.2)
      ∧ (parseSource "let x = 1;").1.statements
          = [.VariableDeclaration "x" none (some (.Literal (.int 1)))]
      ∧ (parseSource "dhora x = 1;").1.statements
          = [.VariableDeclaration "x" none (some (.Literal (.int 1)))]
      ∧ (parseSource "fn f() \x7b return 1; \x7d").1.statements
          = [.FunctionDeclaration "f" [] none
              (.BlockStatement [.ReturnStatement (some (.Literal (.int 1)))])]
      ∧ (parseSource "kam f() \x7b ghurai_diya 1; \x7d").1.statements
          = [.FunctionDeclaration "f" [] none
              (.BlockStatement [.ReturnStatement (some (.Literal (.int 1)))])]
      ∧ (parseSource "if (1) \x7b 2; \x7d else \x7b 3; \x7d").1.statements
          = [.IfStatement (.Literal (.int 1)) (.BlockStatement [.Literal (.int 2)])
              (some (.BlockStatement [.Literal (.int 3)]))]
      ∧ (parseSource "jodi (1) \x7b 2; \x7d nohole \x7b 3; \x7d").1.statements
          = [.IfStatement (.Literal (.int 1)) (.BlockStatement [.Literal (.int 2)])
              (some (.BlockStatement [.Literal (.int 3)]))] := by
  refine ⟨?_, rfl, rfl, rfl, rfl, rfl, rfl⟩
  intro p hp
  simp only [aliasPairs, List.mem_cons, List.not_mem_nil, or_false] at hp
  rcases hp with h | h | h | h | h | h | h | h | h | h <;> subst h <;>
    exact ⟨rfl, rfl, by decide⟩

/-- C3 amended, witness: the amended statement applied to the `let`/`dhora`
pair. -/
theorem claimC3aliasPairsAmendedWitness :
    tokenize "let" = .ok [⟨.LET, "let", 1, 1⟩, ⟨.EOF, "", 1, "let".length + 1⟩]
      ∧ tokenize "dhora" = .ok [⟨.DHORA, "dhora", 1, 1⟩, ⟨.EOF, "", 1, "dhora".length + 1⟩]
      ∧ TokType.LET ≠ TokType.DHORA :=
  claimC3aliasPairsAmended.1 (("let", .LET), ("dhora", .DHORA)) (by decide)

set_option maxRecDepth 100000 in
set_option maxHeartbeats 1000000 in
/-- C4 counterexample: `%` applied to two numbers, one of them a float,
raises the type error "Operands must be integers" — refuting "% applied
to two numbers (including floats) is not a type error". -/
theorem claimC4moduloFloatCounterexample :
    isHostNum (.vfloat 5) = true ∧ isHostNum (.vint 2) = true
      ∧ hixaMod (.vfloat 5) (.vint 2) = .rtErr "Operands must be integers" :=
  ⟨rfl, rfl, rfl⟩

/-- C4 amended: `-`, `*`, `/` raise their type error exactly when an
operand is not host-numeric (host booleans count as numbers), while `%`
raises its type error exactly when an operand is not a host integer — so
`%` on a float operand *is* a type error; `%` on two integers with a
non-zero right operand evaluates to the host's floor modulo. -/
theorem claimC4arithmeticTypeErrors :
    (∀ l r : Value, hixaSub l r = .rtErr "Operands must be numbers"
        ↔ ¬(isHostNum l = true ∧ isHostNum r = true))
      ∧ (∀ l r : Value, hixaMul l r = .rtErr "Operands must be numbers"
        ↔ ¬(isHostNum l = true ∧ isHostNum r = true))
      ∧ (∀ l r : Value, hixaDiv l r = .rtErr "Operands must be numbers"
        ↔ ¬(isHostNum l = true ∧ isHostNum r = true))
      ∧ (∀ l r : Value, hixaMod l r = .rtErr "Operands must be integers"
        ↔ ¬(isHostInt l = true ∧ isHostInt r = true))
      ∧ (∀ a b : Int, b ≠ 0 →
          hixaMod (.vint a) (.vint b) = .ok (.vint (Int.fmod a b))) := by
  refine ⟨?_, ?_, ?_, ?_, ?_⟩
  · intro l r
    cases l <;> cases r <;>
      simp [hixaSub, isHostNum, asHostNum, asHostInt]
  · intro l r
    cases l <;> cases r <;>
      simp [hixaMul, isHostNum, asHostNum, asHostInt]
  · intro l r
    cases l <;> cases r <;>
      simp [hixaDiv, isHostNum, asHostNum] <;> (try split) <;> simp_all <;> decide
  · intro l r
    cases l <;> cases r <;>
      simp [hixaMod, isHostInt, asHostInt] <;> (try split) <;> simp_all <;> decide
  · intro a b hb
    simp [hixaMod, asHostInt, hb]

/-- C4 amended, witness: `%` on the integers 7 and 3 (non-zero divisor)
evaluates to the host modulo 1. -/
theorem claimC4arithmeticTypeErrorsWitness :
    hixaMod (.vint 7) (.vint 3) = .ok (.vint (Int.fmod 7 3)) :=
  claimC4arithmeticTypeErrors.2.2.2.2 7 3 (by decide)

/-- C5: truthiness maps null to false, a boolean to itself, and every
other value — including 0, 0.0, the empty string, the empty array and the
empty object — to true; consequently an if-statement whose condition
evaluates to a truthy value (such as 0 or "") executes its then-branch. -/
theorem claimC5truthiness :
    isTruthy .vnull = false
      ∧ (∀ b, isTruthy (.vbool b) = b)
      ∧ isTruthy (.vint 0) = true
      ∧ isTruthy (.vfloat 0) = true
      ∧ isTruthy (.vstr "") = true
      ∧ isTruthy (.varr []) = true
      ∧ isTruthy (.vobj []) = true
      ∧ (∀ v : Value, v ≠ .vnull → (∀ b, v ≠ .vbool b) → isTruthy v = true)
      ∧ (∀ (fuel : Nat) (cond thenB : Node) (elseB : Option Node)
           (st st1 : InterpState) (v : Value),
          evalNode fuel cond st = (.ok v, st1) → isTruthy v = true →
          evalNode (fuel + 1) (.IfStatement cond thenB elseB) st
            = (match evalNode fuel thenB st1 with
               | (.ok _, st2) => (.ok .vnull, st2)
               | other => other)) := by
  refine ⟨rfl, fun b => rfl, rfl, rfl, rfl, rfl, rfl, ?_, ?_⟩
  · intro v hnull hbool
    cases v <;> first
      | rfl
      | exact absurd rfl hnull
      | exact absurd rfl (hbool _)
  · intro fuel cond thenB elseB st st1 v hEval hTrue
    simp only [evalNode, hEval, hTrue, if_true]

/-- C5 witness: an if-statement whose condition is the literal 0 executes
its then-branch (here: assigning 1, not 2, to a fresh variable). -/
theorem claimC5truthinessWitness :
    evalNode 6
      (.IfStatement (.Literal (.int 0))
        (.VariableDeclaration "x" none (some (.Literal (.int 1))))
        (some (.VariableDeclaration "x" none (some (.Literal (.int 2))))))
      initState
      = (.ok .vnull, envDefine initState "x" (.vint 1)) :=
  claimC5truthiness.2.2.2.2.2.2.2.2 5 (.Literal (.int 0))
    (.VariableDeclaration "x" none (some (.Literal (.int 1))))
    (some (.VariableDeclaration "x" none (some (.Literal (.int 2)))))
    initState initState (.vint 0) rfl rfl

/-- C7: calling a user-defined function whose declared parameter count
differs from the supplied argument count yields the uniform runtime error
naming both counts, with the state unchanged (no frame allocated, the body
never entered); a built-in callable is applied to whatever arguments were
supplied, with no evaluator-imposed arity check. -/
theorem claimC7arity :
    (∀ (fuel : Nat) (name : String) (params : List Param) (body : Node)
       (closure : Nat) (args : List Value) (st : InterpState),
      args.length ≠ params.length →
      callValue (fuel + 1) (.vfun name params body closure) args st
        = (.rtErr ("Expected " ++ toString params.length ++ " arguments but got "
            ++ toString args.length), st))
      ∧ (∀ (fuel : Nat) (b : BuiltinFn) (args : List Value) (st : InterpState),
          callValue (fuel + 1) (.vbuiltin b) args st = applyBuiltin b args st) := by
  constructor
  · intro fuel name params body closure args st h
    simp only [callValue]
    rw [if_pos h]
  · intro fuel b args st
    rfl

/-- C7 witness: calling a 2-parameter function with 1 argument raises the
runtime error naming both counts, leaving the state untouched. -/
theorem claimC7arityWitness :
    callValue 1 (.vfun "f" [⟨"a", none⟩, ⟨"b", none⟩] (.BlockStatement []) 0)
      [.vint 1] initState
      = (.rtErr "Expected 2 arguments but got 1", initState) :=
  claimC7arity.1 0 "f" [⟨"a", none⟩, ⟨"b", none⟩] (.BlockStatement []) 0
    [.vint 1] initState (by decide)

/-- C9: `execute_block` restores the interpreter's current-environment
reference to the frame that was current before entry, whatever the
execution outcome (normal, return unwind, error, or fuel exhaustion), and
likewise every call-dispatch path leaves the caller's current environment
in place. -/
theorem claimC9environmentRestored :
    (∀ (fuel : Nat) (ss : List Node) (envId : Nat) (st : InterpState),
      ((execBlock fuel ss envId st).2).currentEnv = st.currentEnv)
      ∧ (∀ (fuel : Nat) (f : Value) (args : List Value) (st : InterpState),
          ((callValue fuel f args st).2).currentEnv = st.currentEnv) := by
  have hBlock : ∀ (fuel : Nat) (ss : List Node) (envId : Nat) (st : InterpState),
      ((execBlock fuel ss envId st).2).currentEnv = st.currentEnv := by
    intro fuel ss envId st
    cases fuel with
    | zero => rfl
    | succ n =>
      rcases hq : execStmts n ss { st with currentEnv := envId } with ⟨out, st1⟩
      simp [execBlock, hq]
  have hCatch : ∀ p : Outcome × InterpState, (catchReturn p).2 = p.2 := by
    rintro ⟨out, s⟩
    cases out <;> rfl
  have hBuiltin : ∀ (b : BuiltinFn) (args : List Value) (st : InterpState),
      ((applyBuiltin b args st).2).currentEnv = st.currentEnv := by
    intro b args st
    cases b <;>
      first
        | rfl
        | (cases args with
           | nil => rfl
           | cons a rest =>
             cases rest with
             | cons c d => cases a <;> rfl
             | nil => cases a <;> rfl)
  refine ⟨hBlock, ?_⟩
  intro fuel f args st
  cases fuel with
  | zero => rfl
  | succ n =>
    cases f with
    | vfun name params body closure =>
      simp only [callValue]
      split
      · rfl
      · cases body <;> try rfl
        case BlockStatement ss =>
          rw [hCatch]
          exact hBlock n ss _ _
    | vbuiltin b => exact hBuiltin b args st
    | vnull => rfl
    | vbool b => rfl
    | vint n' => rfl
    | vfloat q => rfl
    | vstr s => rfl
    | varr xs => rfl
    | vobj ps => rfl

/-- C10: a return statement executing at the top level does not produce
the uniform runtime-error category: the Return control signal passes
uncaught out of `interpret`, carrying the returned value (null when the
return has no expression), both directly and from inside a top-level
block. -/
theorem claimC10topLevelReturn :
    (∀ (fuel : Nat) (e : Node) (st st1 : InterpState) (v : Value),
      evalNode fuel e st = (.ok v, st1) →
      interpret (fuel + 2) [.ReturnStatement (some e)] st = (.retSig v, st1))
      ∧ (∀ (fuel : Nat) (st : InterpState),
          interpret (fuel + 2) [.ReturnStatement none] st = (.retSig .vnull, st))
      ∧ (∀ (fuel : Nat) (ℓ : LitVal) (st : InterpState),
          (interpret (fuel + 6)
            [.BlockStatement [.ReturnStatement (some (.Literal ℓ))]] st).1
            = .retSig (litValue ℓ)) := by
  refine ⟨?_, ?_, ?_⟩
  · intro fuel e st st1 v h
    show interpret (fuel + 1 + 1) [.ReturnStatement (some e)] st = (.retSig v, st1)
    simp only [interpret, execStmts, evalNode, h]
  · intro fuel st
    rfl
  · intro fuel ℓ st
    rfl

/-- C10 witness: `return 42;` at the top level makes `interpret` yield the
Return signal carrying 42, not a runtime error. -/
theorem claimC10topLevelReturnWitness :
    interpret 7 [.ReturnStatement (some (.Literal (.int 42)))] initState
      = (.retSig (.vint 42), initState) :=
  claimC10topLevelReturn.1 5 (.Literal (.int 42)) initState initState
    (.vint 42) rfl

/-- C6: parsing `let x = 42; let y = ; let z = 10;` recovers from the
malformed middle declaration: the program contains exactly the variable
declarations for `x` and `z`, no node for `y`, and the diagnostics list
records syntax errors. -/
theorem claimC6errorRecovery :
    (parseSource "let x = 42; let y = ; let z = 10;").1.statements
        = [.VariableDeclaration "x" none (some (.Literal (.int 42))),
           .VariableDeclaration "z" none (some (.Literal (.int 10)))]
      ∧ (parseSource "let x = 42; let y = ; let z = 10;").2.errors
          = ["Error at line 1, column 21: Expected expression",
             "Error parsing declaration: Error at line 1, column 21: Expected expression"] := by
  exact ⟨rfl, rfl⟩

set_option maxRecDepth 100000 in
set_option maxHeartbeats 1000000 in
/-- C8: parsing `1 + 2 * 3` yields a `+` node whose left operand is the
literal 1 and whose right operand is a `*` node over the literals 2 and 3:
multiplication binds tighter than addition. -/
theorem claimC8precedence :
    (parseSource "1 + 2 * 3;").1.statements
        = [.BinaryExpression (.Literal (.int 1)) "+"
            (.BinaryExpression (.Literal (.int 2)) "*" (.Literal (.int 3)))]
      ∧ (parseSource "1 + 2 * 3;").2.errors = [] := by
  exact ⟨rfl, rfl⟩

end Hixa

